import Mathlib

/-!
Verification of the ClipForge clip-export / transcoding pipeline.

The export pipeline of this repository is the TypeScript in
`src/.bolt/TECHNICAL_IMPLEMENTATION.md` (functions `exportClip`,
`processWithFFmpeg`, `getAspectRatioDimensions`, `generateSubtitleFile`,
`formatSrtTime`, `getCaptionStyle`), together with the duration filter in
`GroqClient.analyzeForClips` (src/unnamed/part_007), the guarded
`processing_jobs` completion update in the transcription edge function
(src/unnamed/part_008), and the frontend entry point `exportClip` in
`src/src/services/backend-api.ts`.

Each definition below is a shallow embedding of one of those source
functions: pure computations become Lean functions, the orchestration
becomes an explicit state-passing execution over a small state record,
and the behaviour of external effects (storage download/upload, the
spawned ffmpeg child process, file reads) is parametrised by an
environment of step outcomes.

Time representation: the JavaScript sources manipulate seconds as IEEE
numbers, but every timestamp the pipeline consumes or emits is at
millisecond granularity (the SRT format itself is millisecond-precise).
The embedding therefore represents a time as an exact integer count of
milliseconds: a source expression `Math.floor(seconds / 3600)` becomes
`Int.fdiv ms 3600000`, `seconds % 3600` becomes `Int.fmod ms 3600000`,
and so on.  `Math.floor` rounds toward negative infinity, hence `fdiv`
and `fmod`; all times handled by the pipeline are non-negative, where
JavaScript `%` (truncated) and `fmod` (floored) agree.
-/

/-! ## Geometry resolver

Source: `getAspectRatioDimensions` (TECHNICAL_IMPLEMENTATION.md, lines
357-365).  The TypeScript consults a literal object and falls back with
`dimensions[ratio] || [1920, 1080]` when the key is absent. -/

/-- Embedding of `getAspectRatioDimensions(ratio)`: the fixed lookup
table with the source's `|| [1920, 1080]` fallback for any key not in
the table. -/
def getAspectRatioDimensions (ratio : String) : Nat × Nat :=
  if ratio = "16:9" then (1920, 1080)
  else if ratio = "9:16" then (1080, 1920)
  else if ratio = "1:1" then (1080, 1080)
  else if ratio = "4:5" then (1080, 1350)
  else (1920, 1080)

/-! ## SRT time formatting and subtitle generation

Source: `formatSrtTime` and `generateSubtitleFile`
(TECHNICAL_IMPLEMENTATION.md, lines 367-387). -/

/-- JavaScript `n.toString().padStart(2, '0')` for a natural number. -/
def padStart2 (n : Nat) : String :=
  if n < 10 then "0" ++ toString n else toString n

/-- JavaScript `n.toString().padStart(3, '0')` for a natural number. -/
def padStart3 (n : Nat) : String :=
  if n < 10 then "00" ++ toString n
  else if n < 100 then "0" ++ toString n
  else toString n

/-- Embedding of `formatSrtTime(seconds)` on a time of `ms`
milliseconds: `hours = Math.floor(seconds / 3600)`,
`minutes = Math.floor((seconds % 3600) / 60)`,
`secs = Math.floor(seconds % 60)`,
`msPart = Math.floor((seconds % 1) * 1000)`, rendered as
`hh:mm:ss,mmm` with the source's `padStart` calls. -/
def formatSrtTime (ms : Int) : String :=
  let hours := (Int.fdiv ms 3600000).toNat
  let minutes := (Int.fdiv (Int.fmod ms 3600000) 60000).toNat
  let secs := (Int.fdiv (Int.fmod ms 60000) 1000).toNat
  let msPart := (Int.fmod ms 1000).toNat
  padStart2 hours ++ ":" ++ padStart2 minutes ++ ":" ++ padStart2 secs
    ++ "," ++ padStart3 msPart

/-- One word of `captions.words` as consumed by `generateSubtitleFile`:
a text plus absolute start/end times (the source fields are `text`,
`start`, `end`; `end` is a Lean keyword, rendered `stop`). -/
structure CaptionWord where
  text : String
  start : Int
  stop : Int
deriving Repr, DecidableEq

/-- One SRT entry produced by the `captions.words.map` callback of
`generateSubtitleFile`: index on its own line, then the time range, then
the text, each newline-terminated as in the template literal. -/
def srtEntry (index : Nat) (w : CaptionWord) : String :=
  toString (index + 1) ++ "\n" ++ formatSrtTime w.start ++ " --> "
    ++ formatSrtTime w.stop ++ "\n" ++ w.text ++ "\n"

/-- The `captions.words.map((word, index) => ...)` traversal of
`generateSubtitleFile`, written with an explicit running index. -/
def srtEntriesFrom (i : Nat) : List CaptionWord → List String
  | [] => []
  | w :: ws => srtEntry i w :: srtEntriesFrom (i + 1) ws

/-- Embedding of the subtitle content written by
`generateSubtitleFile(captions)`: the mapped entries joined with a
newline.  The source takes no clip window, filters nothing and rewrites
no timestamps. -/
def generateSubtitleContent (words : List CaptionWord) : String :=
  String.intercalate "\n" (srtEntriesFrom 0 words)

/-- The structured cue list behind the entries emitted from running
index `i`: the (index, formatted start, formatted end, text) quadruple
of each entry, in order. -/
def subtitleCuesFrom (i : Nat) : List CaptionWord → List (Nat × String × String × String)
  | [] => []
  | w :: ws =>
    (i + 1, formatSrtTime w.start, formatSrtTime w.stop, w.text) :: subtitleCuesFrom (i + 1) ws

/-- The structured cue list behind `generateSubtitleContent`. -/
def subtitleCues (words : List CaptionWord) : List (Nat × String × String × String) :=
  subtitleCuesFrom 0 words

/-! ## Duration-window filter on AI clip suggestions

Source: `GroqClient.analyzeForClips` (src/unnamed/part_007, lines
151-164).  This is the only place in the repository where a
`[minDuration, maxDuration]` window is enforced; it filters the
LLM-proposed clip suggestions before clip rows are created. -/

/-- One parsed clip suggestion, with the source's `start_time` and
`end_time` fields (milliseconds here; the source prompt requests whole
seconds). -/
structure SuggestedClip where
  start_time : Int
  end_time : Int
deriving Repr, DecidableEq

/-- The filter predicate inside `analyzeForClips`:
`clip.start_time >= 0 && clip.end_time <= videoDuration &&
clip.start_time < clip.end_time &&
end - start >= minDuration && end - start <= maxDuration`. -/
def clipFilterOk (videoDuration minDuration maxDuration : Int)
    (c : SuggestedClip) : Bool :=
  (0 ≤ c.start_time) && (c.end_time ≤ videoDuration)
    && (c.start_time < c.end_time)
    && (minDuration ≤ c.end_time - c.start_time)
    && (c.end_time - c.start_time ≤ maxDuration)

/-- Embedding of the `validatedClips` computation of `analyzeForClips`:
the parsed suggestions surviving the filter (the subsequent `.map` only
adds a derived `duration` field and is omitted from the model). -/
def validatedClips (videoDuration minDuration maxDuration : Int)
    (l : List SuggestedClip) : List SuggestedClip :=
  l.filter (clipFilterOk videoDuration minDuration maxDuration)

/-! ## The ffmpeg invocation

Source: `processWithFFmpeg` (TECHNICAL_IMPLEMENTATION.md, lines
286-355).  The function builds the argument list below, spawns the
external tool with `Deno.run`, and then `await process.status()` — there
is no timeout, no kill path, and no inspection of the exit code. -/

/-- The video filter string the source builds for the scale step:
`scale=W:H,setsar=1:1` (template literal at line 320). -/
def scaleFilterStr (w h : Nat) : String :=
  "scale=" ++ toString w ++ ":" ++ toString h ++ ",setsar=1:1"

/-- The video filter string the source builds for the caption step:
`subtitles=FILE:force_style='STYLE'` (template literal at line 330). -/
def subtitleFilterStr (subtitleFile styleStr : String) : String :=
  "subtitles=" ++ subtitleFile ++ ":force_style=\x27" ++ styleStr ++ "\x27"

/-- Embedding of the `ffmpegCmd` argument list built by
`processWithFFmpeg`.  `startTimeS`/`durationS` stand for the source's
`startTime.toString()`/`duration.toString()` (JavaScript number
rendering is abstracted as a pre-rendered string — no claim depends on
it). -/
def buildFFmpegCmd (inputPath startTimeS durationS : String) (ratio : String)
    (captionsEnabled : Bool) (subtitleFile styleStr : String)
    (output : String) : List String :=
  let base := ["ffmpeg", "-i", inputPath, "-ss", startTimeS, "-t", durationS]
  let dims := getAspectRatioDimensions ratio
  let withScale := base ++
    ["-vf", scaleFilterStr dims.1 dims.2,
     "-c:v", "libx264", "-preset", "medium", "-crf", "23"]
  let withCaptions :=
    if captionsEnabled then
      withScale ++ ["-vf", subtitleFilterStr subtitleFile styleStr]
    else withScale
  withCaptions ++ ["-c:a", "aac", "-b:a", "128k", "-ar", "44100"] ++ [output]

/-- The values passed for the `-vf` option, in order: each list element
equal to `-vf` marks the following element as a filter argument. -/
def vfArgs (cmd : List String) : List String :=
  (cmd.zip cmd.tail).filterMap fun p => if p.1 = "-vf" then some p.2 else none

/-- ffmpeg semantics for a repeated per-stream option: when `-vf` is
given several times, only the last occurrence is applied.  The
effective video filter of a command line is therefore the last `-vf`
value. -/
def effectiveVideoFilter (cmd : List String) : Option String :=
  (vfArgs cmd).getLast?

/-- ffmpeg semantics of the filter `scale=w:h` (no
`force_original_aspect_ratio`, no companion `pad`): the frame is
resized to exactly `w`-by-`h`, stretching the content without
preserving the source aspect ratio and without cropping.  The content
occupies the whole output frame. -/
def scaleContentDims (w h : Nat) (_sw _sh : Nat) : Nat × Nat :=
  (w, h)

/-- Modelled from the spec (section 4.1), for comparison with the code:
letterboxing scales the `sw`-by-`sh` source down to fit inside the
`w`-by-`h` target box preserving the source aspect ratio (the content
dimensions returned here), then center-pads to fill the box. -/
def specLetterboxContent (w h sw sh : Nat) : Nat × Nat :=
  if sw * h ≤ sh * w then ((sw * h) / sh, h) else (w, (sh * w) / sw)

/-- Behaviour of one spawned external-tool process: how long (in
milliseconds of wall clock) it runs before exiting, and its exit
code. -/
structure ToolRun where
  exitTimeMs : Int
  exitCode : Int
deriving Repr, DecidableEq

/-- Modelled from the spec (section 4.3): the wall-clock budget
`max(60s, 3 x duration)` that a transcoder invocation is claimed to be
bounded by, in milliseconds. -/
def specTimeoutBudget (durationMs : Int) : Int :=
  max 60000 (3 * durationMs)

/-! ## The export orchestration

Source: `exportClip` (TECHNICAL_IMPLEMENTATION.md, lines 221-280)
driving `processWithFFmpeg` (lines 286-355).  The body is a straight
sequence of awaited calls with no `try`/`catch`, no input validation
and no status guard; the embedding below executes that sequence over an
explicit state, with the outcome of each external call supplied by an
environment.  A failing awaited call throws, which aborts the run at
that point with the state as it stands (nothing catches the
exception). -/

/-- One row of the `clips` table as read by `exportClip`
(`select('*, videos(*)')`), restricted to the fields the pipeline
touches.  The schema constrains `status` to
`draft | processing | ready | failed`.  The table has no error-kind
column; `errorKind` below models the spec's `ExportJob.errorKind` as a
field no code of the pipeline ever writes. -/
structure ClipRow where
  id : String
  userId : String
  start_time : Int
  end_time : Int
  ratio : String
  captionsEnabled : Bool
  status : String
  file_path : Option String
  errorKind : Option String
deriving Repr, DecidableEq

/-- endTime - startTime, the `duration` column `exportClip` passes to
`processWithFFmpeg`. -/
def clipDuration (c : ClipRow) : Int :=
  c.end_time - c.start_time

/-- Outcomes of the external calls `exportClip` awaits, in source
order: the source-video download, the spawned ffmpeg process, the
`Deno.readFile` of the output, the storage upload of the clip, and the
thumbnail generation/upload. -/
structure ExportEnv where
  downloadOk : Bool
  ffmpeg : ToolRun
  readOk : Bool
  uploadOk : Bool
  thumbOk : Bool
deriving Repr, DecidableEq

/-- State threaded through one `exportClip` run: the clip row as the
database sees it, which temp files currently exist
(`/tmp/input_*.mp4`, `/tmp/CLIPID.mp4`, `/tmp/subtitles_*.srt`), how
long the orchestrator blocked waiting on the ffmpeg child, and whether
it ever forcibly terminated that child. -/
structure PipelineState where
  clip : ClipRow
  tempInput : Bool
  tempOutput : Bool
  tempSubtitle : Bool
  ffmpegWaitedMs : Int
  ffmpegKilled : Bool
deriving Repr, DecidableEq

/-- Result of one `exportClip` run: normal return, or an uncaught
exception thrown by the named step. -/
inductive ExportOutcome where
  | ok : ExportOutcome
  | threw : String → ExportOutcome
deriving Repr, DecidableEq

/-- Embedding of one `exportClip(clipId)` run.  Following the source
line by line: fetch the clip row; unconditionally update `status` to
`processing` (no duration validation, no check of the current status);
download the source video; inside `processWithFFmpeg` write the temp
input file, generate the subtitle file when captions are enabled, spawn
ffmpeg and await its exit unconditionally, then remove the temp input;
read the output file; upload it; generate and upload the thumbnail;
unconditionally update the row to `status = ready` with the new
`file_path`; finally remove the temp output.  No step is wrapped in a
`try`/`catch`, so the first failing step aborts the run with the state
as it stands. -/
def exportClipRun (env : ExportEnv) (c : ClipRow) : ExportOutcome × PipelineState :=
  let s1 : PipelineState :=
    { clip := { c with status := "processing" }
      tempInput := false, tempOutput := false, tempSubtitle := false
      ffmpegWaitedMs := 0, ffmpegKilled := false }
  if !env.downloadOk then (.threw "download", s1) else
  let s2 := { s1 with tempInput := true }
  let s3 := if c.captionsEnabled then { s2 with tempSubtitle := true } else s2
  let s4 := { s3 with
    ffmpegWaitedMs := env.ffmpeg.exitTimeMs
    tempOutput := env.ffmpeg.exitCode == 0 }
  let s5 := { s4 with tempInput := false }
  if !env.readOk then (.threw "readOutput", s5) else
  if !env.uploadOk then (.threw "upload", s5) else
  if !env.thumbOk then (.threw "thumbnail", s5) else
  let s6 := { s5 with clip := { s5.clip with
    status := "ready"
    file_path := some (c.userId ++ "/clips/" ++ c.id ++ ".mp4") } }
  (.ok, { s6 with tempOutput := false })

/-! ## The guarded processing_jobs completion update

Source: the transcription edge function (src/unnamed/part_008, lines
85-99): `update({status: "completed", progress: 100, ...})` filtered by
`.eq("video_id", ...).eq("job_type", "transcription")
.eq("status", "processing")`. -/

/-- One `processing_jobs` row, restricted to the updated fields. -/
structure ProcessingJob where
  status : String
  progress : Nat
  completedAtSet : Bool
deriving Repr, DecidableEq

/-- Embedding of the completion update: the `.eq("status",
"processing")` filter means the write applies only to a row currently
`processing`; against any other row it matches nothing and changes
nothing.  The second component is whether supabase signals an error
(`jobError`): an update matching zero rows is not an error, so it is
`false` on both paths. -/
def transcriptionJobComplete (j : ProcessingJob) : ProcessingJob × Bool :=
  if j.status = "processing" then
    ({ j with status := "completed", progress := 100, completedAtSet := true }, false)
  else (j, false)

/-! ## The frontend export entry point

Source: `src/src/services/backend-api.ts`.  The module's URL mechanism
is `getBackendUrl` caching into the module-level `cachedBackendUrl`;
`exportClip` (lines 330-355) instead interpolates a bare identifier
`BACKEND_URL` into its fetch URL.  The model below embeds JavaScript
identifier resolution for that template literal: an identifier is
looked up in the scope chain (function locals, module bindings, host
globals) and an unresolvable identifier raises a `ReferenceError`
before any value is produced. -/

/-- A JavaScript runtime error, restricted to what the model needs. -/
inductive JsError where
  | referenceError : String → JsError
deriving Repr, DecidableEq

/-- One piece of a template literal: literal text or an interpolated
identifier reference. -/
inductive TplPart where
  | lit : String → TplPart
  | varRef : String → TplPart
deriving Repr, DecidableEq

/-- Identifier resolution: a name present in the scope chain yields its
value from `env`; an absent name raises `ReferenceError`. -/
def lookupVar (scope : List String) (env : String → String) (n : String) :
    Except JsError String :=
  if n ∈ scope then .ok (env n) else .error (.referenceError n)

/-- Left-to-right evaluation of a template literal; the first failing
interpolation aborts the whole evaluation. -/
def evalTemplate (scope : List String) (env : String → String) :
    List TplPart → Except JsError String
  | [] => .ok ""
  | .lit s :: rest => (evalTemplate scope env rest).map fun r => s ++ r
  | .varRef n :: rest => do
    let v ← lookupVar scope env n
    let r ← evalTemplate scope env rest
    pure (v ++ r)

/-- The module-scope bindings of `src/src/services/backend-api.ts`:
its import and every top-level `let`/`const`/`function` declaration
(TypeScript `interface` declarations are erased at runtime). -/
def backendApiModuleScope : List String :=
  ["supabase", "cachedBackendUrl", "lastFetchTime", "CACHE_DURATION",
   "getBackendUrl", "clearBackendUrlCache", "ensureBackendConfigured",
   "handleFetchError", "checkBackendHealth", "getYouTubeInfo",
   "importFromYouTube", "uploadVideo", "startTranscription",
   "generateClips", "exportClip", "getVideoInfo", "generateThumbnail",
   "transcodeVideo", "isBackendAvailable"]

/-- Host globals visible from browser module code (the ones this module
touches). -/
def browserGlobals : List String :=
  ["fetch", "JSON", "console", "Date", "Promise", "FormData",
   "XMLHttpRequest", "window", "navigator", "Error", "TypeError"]

/-- The fetch-URL template literal of `exportClip` (line 339 of the
source): a reference to the identifier `BACKEND_URL` followed by the
literal path. -/
def exportClipUrlTemplate : List TplPart :=
  [.varRef "BACKEND_URL", .lit "/api/clips/export"]

/-- Observable result of one frontend `exportClip(clipId, userId,
options)` call: the URLs actually requested over HTTP, and the value
returned or error thrown to the caller. -/
structure FrontendRun where
  httpRequests : List String
  result : Except JsError Unit
deriving Repr

/-- Embedding of the frontend `exportClip`: evaluate the fetch-URL
template in the scope made of the function's locals (its parameters),
the module bindings and the host globals, then issue the request.  The
source's `catch` clause logs and rethrows the same error, so a failed
template evaluation surfaces unchanged and no request is issued. -/
def backendApiExportClip (clipId userId : String) (env : String → String) :
    FrontendRun :=
  let scope := ["clipId", "userId", "options"] ++ backendApiModuleScope ++ browserGlobals
  let _ := (clipId, userId)
  match evalTemplate scope env exportClipUrlTemplate with
  | .error e => { httpRequests := [], result := .error e }
  | .ok url => { httpRequests := [url], result := .ok () }

/-! ## Shared concrete inputs

`clipBase` is the spec's own end-to-end scenario (section 8): a clip of
the 30s-75s range of its source, 9:16 target — a 45s duration, inside
the repository's configured duration window of 15s-60s
(`minDuration: 15`, `maxDuration: 60` defaults in `analyzeForClips` and
`generateClips`).  `envAllOk` is a run in which every external call
succeeds and ffmpeg exits 0 after five seconds. -/

def envAllOk : ExportEnv :=
  { downloadOk := true, ffmpeg := { exitTimeMs := 5000, exitCode := 0 },
    readOk := true, uploadOk := true, thumbOk := true }

def clipBase : ClipRow :=
  { id := "clip-1", userId := "user-1", start_time := 30000, end_time := 75000,
    ratio := "9:16", captionsEnabled := false, status := "draft",
    file_path := none, errorKind := none }

/-! ## Helper lemmas about the orchestration -/

/-- The run of `exportClip` never reads the clip row's current status:
its first write overwrites `status` unconditionally, so the whole run
is unchanged when the initial status changes. -/
theorem exportClipRun_ignores_status (env : ExportEnv) (c : ClipRow) (s : String) :
    exportClipRun env { c with status := s } = exportClipRun env c := by
  cases c
  rfl

/-- The run never touches the (spec-level) error-kind field: no step of
`exportClip` writes any error classification. -/
theorem exportClipRun_errorKind (env : ExportEnv) (c : ClipRow) :
    (exportClipRun env c).2.clip.errorKind = c.errorKind := by
  obtain ⟨d, f, r, u, t⟩ := env
  obtain ⟨i1, u1, a1, b1, r1, cc, s1, f1, k1⟩ := c
  cases d <;> cases r <;> cases u <;> cases t <;> cases cc <;> rfl

/-- The only statuses the run ever leaves behind are `processing` and
`ready`; the schema's `failed` status is unreachable from this code. -/
theorem exportClipRun_status_cases (env : ExportEnv) (c : ClipRow) :
    (exportClipRun env c).2.clip.status = "processing"
      ∨ (exportClipRun env c).2.clip.status = "ready" := by
  obtain ⟨d, f, r, u, t⟩ := env
  obtain ⟨i1, u1, a1, b1, r1, cc, s1, f1, k1⟩ := c
  cases d <;> cases r <;> cases u <;> cases t <;> cases cc
    <;> first | exact Or.inl rfl | exact Or.inr rfl

/-- A run aborted by an uncaught exception leaves the clip row at the
non-terminal `processing` status. -/
theorem exportClipRun_threw_status (env : ExportEnv) (c : ClipRow)
    (h : (exportClipRun env c).1 ≠ ExportOutcome.ok) :
    (exportClipRun env c).2.clip.status = "processing" := by
  obtain ⟨d, f, r, u, t⟩ := env
  obtain ⟨i1, u1, a1, b1, r1, cc, s1, f1, k1⟩ := c
  cases d <;> cases r <;> cases u <;> cases t <;> cases cc
    <;> first | rfl | exact absurd rfl h

/-- Once the source download succeeded, the orchestrator blocks on the
ffmpeg child for its full running time. -/
theorem exportClipRun_waits_ffmpeg (env : ExportEnv) (c : ClipRow)
    (h : env.downloadOk = true) :
    (exportClipRun env c).2.ffmpegWaitedMs = env.ffmpeg.exitTimeMs := by
  obtain ⟨d, f, r, u, t⟩ := env
  obtain ⟨i1, u1, a1, b1, r1, cc, s1, f1, k1⟩ := c
  cases d
  · exact Bool.noConfusion h
  · cases r <;> cases u <;> cases t <;> cases cc <;> rfl

/-- No path of the run forcibly terminates the ffmpeg child. -/
theorem exportClipRun_never_kills (env : ExportEnv) (c : ClipRow) :
    (exportClipRun env c).2.ffmpegKilled = false := by
  obtain ⟨d, f, r, u, t⟩ := env
  obtain ⟨i1, u1, a1, b1, r1, cc, s1, f1, k1⟩ := c
  cases d <;> cases r <;> cases u <;> cases t <;> cases cc <;> rfl

/-- The subtitle temp file exists at the end of a run exactly when it
was created (download reached, captions enabled): no path removes it. -/
theorem exportClipRun_subtitle_leak (env : ExportEnv) (c : ClipRow) :
    (exportClipRun env c).2.tempSubtitle = (env.downloadOk && c.captionsEnabled) := by
  obtain ⟨d, f, r, u, t⟩ := env
  obtain ⟨i1, u1, a1, b1, r1, cc, s1, f1, k1⟩ := c
  cases d <;> cases r <;> cases u <;> cases t <;> cases cc <;> rfl

/-- On the fully successful path the input and output temp files are
removed. -/
theorem exportClipRun_ok_cleanup (env : ExportEnv) (c : ClipRow)
    (h : (exportClipRun env c).1 = ExportOutcome.ok) :
    (exportClipRun env c).2.tempInput = false
      ∧ (exportClipRun env c).2.tempOutput = false := by
  obtain ⟨d, f, r, u, t⟩ := env
  obtain ⟨i1, u1, a1, b1, r1, cc, s1, f1, k1⟩ := c
  cases d <;> cases r <;> cases u <;> cases t <;> cases cc
    <;> first
      | exact absurd h (by intro hx; exact ExportOutcome.noConfusion hx)
      | exact ⟨rfl, rfl⟩

/-- The outcome and final status of a run do not depend on the clip's
time range: no duration check appears anywhere on the path. -/
theorem exportClipRun_ignores_duration (env : ExportEnv) (c : ClipRow) (a b : Int) :
    (exportClipRun env { c with start_time := a, end_time := b }).1
        = (exportClipRun env c).1
      ∧ (exportClipRun env { c with start_time := a, end_time := b }).2.clip.status
        = (exportClipRun env c).2.clip.status := by
  obtain ⟨d, f, r, u, t⟩ := env
  obtain ⟨i1, u1, a1, b1, r1, cc, s1, f1, k1⟩ := c
  cases d <;> cases r <;> cases u <;> cases t <;> cases cc <;> exact ⟨rfl, rfl⟩

/-- Every suggestion surviving the `analyzeForClips` filter has its
duration inside the `[minDuration, maxDuration]` window. -/
theorem validatedClips_window (vd mn mx : Int) (l : List SuggestedClip)
    (s : SuggestedClip) (h : s ∈ validatedClips vd mn mx l) :
    mn ≤ s.end_time - s.start_time ∧ s.end_time - s.start_time ≤ mx := by
  simp only [validatedClips, List.mem_filter, clipFilterOk, Bool.and_eq_true,
    decide_eq_true_eq] at h
  exact ⟨h.2.1.2, h.2.2⟩

/-- The emitted cue list has exactly one entry per caption word:
nothing is filtered out. -/
theorem subtitleCuesFrom_length (ws : List CaptionWord) :
    ∀ i, (subtitleCuesFrom i ws).length = ws.length := by
  induction ws with
  | nil => intro i; rfl
  | cons w ws ih => intro i; simp [subtitleCuesFrom, ih]

/-- Every emitted cue carries some caption word's own absolute
timestamps, formatted verbatim: no shifting and no clamping occurs. -/
theorem subtitleCuesFrom_mem (ws : List CaptionWord) :
    ∀ i n s e t, (n, s, e, t) ∈ subtitleCuesFrom i ws →
      ∃ w, w ∈ ws ∧ s = formatSrtTime w.start ∧ e = formatSrtTime w.stop
        ∧ t = w.text := by
  induction ws with
  | nil => intro i n s e t h; simp [subtitleCuesFrom] at h
  | cons w ws ih =>
    intro i n s e t h
    simp only [subtitleCuesFrom, List.mem_cons] at h
    rcases h with h | h
    · simp only [Prod.mk.injEq] at h
      exact ⟨w, List.mem_cons_self w ws, h.2.1, h.2.2.1, h.2.2.2⟩
    · obtain ⟨w', hw', hs, he, ht⟩ := ih (i + 1) n s e t h
      exact ⟨w', List.mem_cons_of_mem w hw', hs, he, ht⟩

/-! ## Claims -/

/-- C1, counterexample.  A clip whose duration (1000 seconds) lies far
outside the configured window `[15s, 60s]` is not rejected: the run
completes normally and the job record ends visible with status
`ready` — `submitExport` (the `exportClip` edge function) performs no
duration validation and returns no `ValidationError`. -/
theorem C1_counterexample :
    let c : ClipRow := { id := "clip-long", userId := "user-1", start_time := 0,
                         end_time := 1000000, ratio := "16:9", captionsEnabled := false,
                         status := "draft", file_path := none, errorKind := none }
    clipDuration c > 60000
      ∧ (exportClipRun envAllOk c).1 = ExportOutcome.ok
      ∧ (exportClipRun envAllOk c).2.clip.status = "ready" := by
  decide

/-- C1, as amended.  `exportClip` performs no duration validation at
all: its outcome and final status are identical for every time range
of the clip.  The only `[minDuration, maxDuration]` window in the
repository is the `analyzeForClips` filter on AI clip suggestions,
applied before clip rows exist, not at export submission: every
suggestion it lets through has its duration inside the window. -/
theorem C1_export_has_no_duration_validation :
    (∀ (env : ExportEnv) (c : ClipRow) (a b : Int),
      (exportClipRun env { c with start_time := a, end_time := b }).1
          = (exportClipRun env c).1
        ∧ (exportClipRun env { c with start_time := a, end_time := b }).2.clip.status
          = (exportClipRun env c).2.clip.status)
    ∧ (∀ (vd mn mx : Int) (l : List SuggestedClip) (s : SuggestedClip),
        s ∈ validatedClips vd mn mx l →
          mn ≤ s.end_time - s.start_time ∧ s.end_time - s.start_time ≤ mx) :=
  ⟨exportClipRun_ignores_duration, validatedClips_window⟩

/-- C1, witness: the amended theorem applied to the all-success run
with the time range replaced by a 1000-second one, and to a
45-second suggestion inside the 15s-60s window. -/
theorem C1_witness :
    ((exportClipRun envAllOk { clipBase with start_time := 0, end_time := 1000000 }).1
        = (exportClipRun envAllOk clipBase).1
      ∧ (exportClipRun envAllOk { clipBase with start_time := 0, end_time := 1000000 }).2.clip.status
        = (exportClipRun envAllOk clipBase).2.clip.status)
    ∧ ((15000 : Int) ≤ (45000 : Int) - 0 ∧ (45000 : Int) - 0 ≤ 60000) :=
  ⟨C1_export_has_no_duration_validation.1 envAllOk clipBase 0 1000000,
   C1_export_has_no_duration_validation.2 100000 15000 60000
     [{ start_time := 0, end_time := 45000 }] { start_time := 0, end_time := 45000 }
     (by decide)⟩

/-- C2, counterexample.  A clip already in the terminal `ready` state
is not protected: re-running `exportClip` on it first resets its status
to the non-terminal `processing` (seen in the run where the download
then fails), and on a then-successful run overwrites its
`file_path`. -/
theorem C2_counterexample :
    ((exportClipRun { envAllOk with downloadOk := false }
        { clipBase with status := "ready", file_path := some "user-1/clips/old.mp4" }).2.clip.status
      = "processing")
    ∧ ((exportClipRun envAllOk
        { clipBase with status := "ready", file_path := some "user-1/clips/old.mp4" }).2.clip.file_path
      = some "user-1/clips/clip-1.mp4")
    ∧ some "user-1/clips/clip-1.mp4" ≠ some "user-1/clips/old.mp4"
    ∧ "processing" ≠ "ready" := by
  decide

/-- C2, as amended.  The export path's terminal writes are unguarded:
the run of `exportClip` is oblivious to the clip's current status, so
an already-terminal job is rewritten rather than rejected.  The only
guarded terminal write in the repository is the `processing_jobs`
completion update of the transcription function, whose
`.eq("status", "processing")` filter makes a second completion attempt
a silent no-op (zero rows matched, no error signalled), not a
rejection. -/
theorem C2_terminal_writes_unguarded :
    (∀ (env : ExportEnv) (c : ClipRow) (s : String),
      exportClipRun env { c with status := s } = exportClipRun env c)
    ∧ (∀ j : ProcessingJob, j.status ≠ "processing" →
        transcriptionJobComplete j = (j, false)) :=
  ⟨exportClipRun_ignores_status,
   fun j h => by simp [transcriptionJobComplete, h]⟩

/-- C2, witness: the amended theorem applied to a `ready` clip and to
an already-completed transcription job. -/
theorem C2_witness :
    exportClipRun envAllOk { clipBase with status := "ready" }
        = exportClipRun envAllOk clipBase
      ∧ transcriptionJobComplete { status := "completed", progress := 100, completedAtSet := true }
        = ({ status := "completed", progress := 100, completedAtSet := true }, false) :=
  ⟨C2_terminal_writes_unguarded.1 envAllOk clipBase "ready",
   C2_terminal_writes_unguarded.2
     { status := "completed", progress := 100, completedAtSet := true } (by decide)⟩

/-- C3, counterexample.  When the storage upload fails, the exception
escapes `exportClip` uncaught: the job is left at the non-terminal
`processing` status (not `failed`), and no error kind is written. -/
theorem C3_counterexample :
    (exportClipRun { envAllOk with uploadOk := false } clipBase).1
        = ExportOutcome.threw "upload"
      ∧ (exportClipRun { envAllOk with uploadOk := false } clipBase).2.clip.status
        = "processing"
      ∧ (exportClipRun { envAllOk with uploadOk := false } clipBase).2.clip.errorKind
        = none
      ∧ "processing" ≠ "failed" := by
  decide

/-- C3, as amended.  `exportClip` catches no exceptions and classifies
no errors: every run leaves the error-kind untouched, the only statuses
it can leave behind are `processing` and `ready`, and every failing run
leaves the job at the non-terminal `processing`. -/
theorem C3_no_failure_classification :
    ∀ (env : ExportEnv) (c : ClipRow),
      (exportClipRun env c).2.clip.errorKind = c.errorKind
      ∧ ((exportClipRun env c).2.clip.status = "processing"
          ∨ (exportClipRun env c).2.clip.status = "ready")
      ∧ ((exportClipRun env c).1 ≠ ExportOutcome.ok →
          (exportClipRun env c).2.clip.status = "processing") :=
  fun env c =>
    ⟨exportClipRun_errorKind env c, exportClipRun_status_cases env c,
     exportClipRun_threw_status env c⟩

/-- C3, witness: the amended theorem applied to the failing-download
run, whose thrown outcome is discharged concretely. -/
theorem C3_witness :
    (exportClipRun { envAllOk with downloadOk := false } clipBase).2.clip.status
      = "processing" :=
  (C3_no_failure_classification { envAllOk with downloadOk := false } clipBase).2.2
    (by decide)

/-- C5, counterexample.  An unknown ratio does not fail fast: the
resolver silently returns the 16:9 default. -/
theorem C5_counterexample :
    getAspectRatioDimensions "21:9" = (1920, 1080)
      ∧ getAspectRatioDimensions "21:9" = getAspectRatioDimensions "16:9" := by
  decide

/-- C5, as amended.  `getAspectRatioDimensions` is the fixed lookup
the claim lists for the four supported ratios, but any ratio outside
the enumeration falls back to the default 1920x1080 instead of
failing. -/
theorem C5_lookup_with_default :
    getAspectRatioDimensions "16:9" = (1920, 1080)
      ∧ getAspectRatioDimensions "9:16" = (1080, 1920)
      ∧ getAspectRatioDimensions "1:1" = (1080, 1080)
      ∧ getAspectRatioDimensions "4:5" = (1080, 1350)
      ∧ ∀ r : String, r ≠ "16:9" → r ≠ "9:16" → r ≠ "1:1" → r ≠ "4:5" →
          getAspectRatioDimensions r = (1920, 1080) := by
  refine ⟨by decide, by decide, by decide, by decide, ?_⟩
  intro r h1 h2 h3 h4
  simp [getAspectRatioDimensions, h1, h2, h3, h4]

/-- C5, witness: the amended theorem's fallback case applied to the
unsupported ratio 7:3. -/
theorem C5_witness : getAspectRatioDimensions "7:3" = (1920, 1080) :=
  C5_lookup_with_default.2.2.2.2 "7:3" (by decide) (by decide) (by decide) (by decide)

/-- C6, counterexample.  The cue with absolute times [100.5s, 103.2s]
is emitted with those very absolute times — `00:01:40,500` to
`00:01:43,200` — and not with the clip-relative, clamped times
[5.5s, 8.2s] (`00:00:05,500` to `00:00:08,200`) that the claim
requires for the clip window [95s, 110s]. -/
theorem C6_counterexample :
    subtitleCues [{ text := "Hi", start := 100500, stop := 103200 }]
        = [(1, "00:01:40,500", "00:01:43,200", "Hi")]
      ∧ formatSrtTime (100500 - 95000) = "00:00:05,500"
      ∧ formatSrtTime (103200 - 95000) = "00:00:08,200"
      ∧ ("00:01:40,500", "00:01:43,200") ≠ ("00:00:05,500", "00:00:08,200") := by
  decide

/-- C6, as amended.  `generateSubtitleFile` rewrites nothing: it takes
no clip window, drops no cue (one entry per caption word), and emits
each word's own absolute timestamps formatted verbatim. -/
theorem C6_absolute_timestamps :
    ∀ words : List CaptionWord,
      (subtitleCues words).length = words.length
      ∧ (∀ n s e t, (n, s, e, t) ∈ subtitleCues words →
          ∃ w, w ∈ words ∧ s = formatSrtTime w.start ∧ e = formatSrtTime w.stop
            ∧ t = w.text) :=
  fun words =>
    ⟨subtitleCuesFrom_length words 0,
     fun n s e t h => subtitleCuesFrom_mem words 0 n s e t h⟩

/-- C6, witness: the amended theorem applied to the one-cue track, the
membership hypothesis discharged concretely. -/
theorem C6_witness :
    ∃ w, w ∈ [({ text := "Hi", start := 100500, stop := 103200 } : CaptionWord)]
      ∧ "00:01:40,500" = formatSrtTime w.start
      ∧ "00:01:43,200" = formatSrtTime w.stop ∧ "Hi" = w.text :=
  (C6_absolute_timestamps [{ text := "Hi", start := 100500, stop := 103200 }]).2
    1 "00:01:40,500" "00:01:43,200" "Hi" (by decide)

/-- C7, counterexample.  For the 45-second clip the claimed budget is
`max(60s, 3 x 45s) = 135s`, yet an ffmpeg child that runs for 1000
seconds is waited on in full, never terminated, and the job still ends
`ready` — no `TranscodeTimeout` (indeed no failure state at all) is
produced. -/
theorem C7_counterexample :
    specTimeoutBudget (clipDuration clipBase) = 135000
      ∧ (exportClipRun
            { envAllOk with ffmpeg := { exitTimeMs := 1000000, exitCode := 0 } }
            clipBase).2.ffmpegWaitedMs = 1000000
      ∧ (1000000 : Int) > 135000
      ∧ (exportClipRun
            { envAllOk with ffmpeg := { exitTimeMs := 1000000, exitCode := 0 } }
            clipBase).2.ffmpegKilled = false
      ∧ (exportClipRun
            { envAllOk with ffmpeg := { exitTimeMs := 1000000, exitCode := 0 } }
            clipBase).1 = ExportOutcome.ok
      ∧ (exportClipRun
            { envAllOk with ffmpeg := { exitTimeMs := 1000000, exitCode := 0 } }
            clipBase).2.clip.status = "ready" := by
  decide

/-- C7, as amended.  `processWithFFmpeg` enforces no timeout: no path
of the run ever terminates the child process, and once the download
step has succeeded the orchestrator blocks for the child's entire
running time, whatever it is — there is no classification of a run as
`TranscodeTimeout`. -/
theorem C7_no_timeout_enforced :
    ∀ (env : ExportEnv) (c : ClipRow),
      (exportClipRun env c).2.ffmpegKilled = false
      ∧ (env.downloadOk = true →
          (exportClipRun env c).2.ffmpegWaitedMs = env.ffmpeg.exitTimeMs) :=
  fun env c =>
    ⟨exportClipRun_never_kills env c, fun h => exportClipRun_waits_ffmpeg env c h⟩

/-- C7, witness: the amended theorem applied to the all-success run,
the download hypothesis discharged concretely. -/
theorem C7_witness :
    (exportClipRun envAllOk clipBase).2.ffmpegWaitedMs = envAllOk.ffmpeg.exitTimeMs :=
  (C7_no_timeout_enforced envAllOk clipBase).2 (by decide)

/-- C8, counterexample.  A fully successful captioned export — a
terminal transition to `ready` — leaves the generated subtitle file on
disk; and a run whose upload fails leaves the transcoded output file
on disk as well. -/
theorem C8_counterexample :
    (exportClipRun envAllOk { clipBase with captionsEnabled := true }).1
        = ExportOutcome.ok
      ∧ (exportClipRun envAllOk { clipBase with captionsEnabled := true }).2.clip.status
        = "ready"
      ∧ (exportClipRun envAllOk { clipBase with captionsEnabled := true }).2.tempSubtitle
        = true
      ∧ (exportClipRun { envAllOk with uploadOk := false }
            { clipBase with captionsEnabled := true }).2.tempOutput = true := by
  decide

/-- C8, as amended.  Cleanup is partial, not scoped: the input and
output temp files are removed on the fully successful path, but the
subtitle file survives every exit path on which it was created — it is
never removed, even on success. -/
theorem C8_partial_cleanup :
    ∀ (env : ExportEnv) (c : ClipRow),
      (exportClipRun env c).2.tempSubtitle = (env.downloadOk && c.captionsEnabled)
      ∧ ((exportClipRun env c).1 = ExportOutcome.ok →
          (exportClipRun env c).2.tempInput = false
            ∧ (exportClipRun env c).2.tempOutput = false) :=
  fun env c =>
    ⟨exportClipRun_subtitle_leak env c, fun h => exportClipRun_ok_cleanup env c h⟩

/-- C8, witness: the amended theorem applied to the successful
captioned run, the success hypothesis discharged concretely. -/
theorem C8_witness :
    (exportClipRun envAllOk { clipBase with captionsEnabled := true }).2.tempInput = false
      ∧ (exportClipRun envAllOk { clipBase with captionsEnabled := true }).2.tempOutput
        = false :=
  (C8_partial_cleanup envAllOk { clipBase with captionsEnabled := true }).2 (by decide)

/-- C9, counterexample.  Submitting an export for a clip that is
already `processing` — a running job — is not rejected: the second run
proceeds through the whole pipeline and completes with `ready`. -/
theorem C9_counterexample :
    (exportClipRun envAllOk { clipBase with status := "processing" }).1
        = ExportOutcome.ok
      ∧ (exportClipRun envAllOk { clipBase with status := "processing" }).2.clip.status
        = "ready" := by
  decide

/-- C9, as amended.  `exportClip` holds no per-clip exclusion and never
inspects the clip's current status: its run is bit-for-bit identical
whatever status — `draft`, `processing`, `ready` or `failed` — the clip
row currently has, so a concurrent duplicate submission is processed in
full rather than rejected. -/
theorem C9_no_per_clip_exclusion :
    ∀ (env : ExportEnv) (c : ClipRow) (s1 s2 : String),
      exportClipRun env { c with status := s1 }
        = exportClipRun env { c with status := s2 } :=
  fun env c s1 s2 =>
    (exportClipRun_ignores_status env c s1).trans
      (exportClipRun_ignores_status env c s2).symm

/-- C10.  The frontend `exportClip` of `backend-api.ts` interpolates
the identifier `BACKEND_URL`, which is bound neither in the function,
nor at module scope (whose URL mechanism is
`getBackendUrl`/`cachedBackendUrl`, which `exportClip` never calls),
nor among host globals: for every input, evaluating the fetch-URL
template throws `ReferenceError` and no HTTP request is ever issued —
the call can never succeed. -/
theorem C10_exportClip_reference_error :
    ∀ (clipId userId : String) (env : String → String),
      (backendApiExportClip clipId userId env).httpRequests = []
      ∧ (backendApiExportClip clipId userId env).result
        = Except.error (JsError.referenceError "BACKEND_URL") := by
  intro a b env
  exact ⟨rfl, rfl⟩

/-- The scale filter string can never collide with the option token
`-vf`: it starts with the character `s`. -/
theorem scaleFilterStr_ne_vf (w h : Nat) : scaleFilterStr w h ≠ "-vf" := by
  intro h0
  have hd := congrArg String.data h0
  simp [scaleFilterStr, String.append] at hd

/-- The subtitle filter string can never collide with the option token
`-vf`: it starts with the character `s`. -/
theorem subtitleFilterStr_ne_vf (f s : String) : subtitleFilterStr f s ≠ "-vf" := by
  intro h0
  have hd := congrArg String.data h0
  simp [subtitleFilterStr, String.append] at hd

/-- Without captions, the command's only `-vf` value — hence its
effective video filter — is the plain scale filter for the resolved
dimensions. -/
theorem effectiveVideoFilter_no_captions (ratio sf ss op : String) :
    effectiveVideoFilter
        (buildFFmpegCmd "/tmp/input.mp4" "30" "45" ratio false sf ss op)
      = some (scaleFilterStr (getAspectRatioDimensions ratio).1
          (getAspectRatioDimensions ratio).2) := by
  simp [buildFFmpegCmd, effectiveVideoFilter, vfArgs, List.zip,
    scaleFilterStr_ne_vf]

/-- With captions enabled, a second `-vf` is pushed, and ffmpeg's
last-occurrence rule makes the subtitles filter the effective one: the
scale filter is discarded entirely. -/
theorem effectiveVideoFilter_with_captions (ratio sf ss op : String) :
    effectiveVideoFilter
        (buildFFmpegCmd "/tmp/input.mp4" "30" "45" ratio true sf ss op)
      = some (subtitleFilterStr sf ss) := by
  simp [buildFFmpegCmd, effectiveVideoFilter, vfArgs, List.zip,
    scaleFilterStr_ne_vf, subtitleFilterStr_ne_vf]

/-- C4, counterexample.  For a 1080x1080 source and target 16:9, the
code's effective filter is the bare `scale=1920:1080,setsar=1:1` — no
`pad`, no aspect-preserving fit: the content fills 1920x1080, whose
aspect differs from the source's (1920 x 1080 vs 1080 x 1080 on
cross-multiplication), i.e. the content is distorted, where the claimed
letterboxing would have kept the content at 1080x1080 inside the target
box. -/
theorem C4_counterexample :
    effectiveVideoFilter
        (buildFFmpegCmd "/tmp/input_1.mp4" "30" "45" "16:9" false "/tmp/s.srt"
          "FontName=Arial" "/tmp/clip-1.mp4")
      = some "scale=1920:1080,setsar=1:1"
      ∧ scaleContentDims 1920 1080 1080 1080 = (1920, 1080)
      ∧ specLetterboxContent 1920 1080 1080 1080 = (1080, 1080)
      ∧ ((1920, 1080) : Nat × Nat) ≠ (1080, 1080)
      ∧ 1920 * 1080 ≠ 1080 * 1080 := by
  decide

/-- C4, as amended.  The Transcoder stretches rather than letterboxes:
without captions the effective filter is `scale=W:H,setsar=1:1`, whose
semantics stretch the content to exactly the resolved target frame, so
whenever the source aspect differs from the target aspect the content
aspect is not preserved (distortion, though indeed no crop); and with
captions enabled the second `-vf` replaces the scale filter outright,
so not even the scaling to target dimensions survives. -/
theorem C4_stretch_not_letterbox :
    (∀ ratio sf ss op : String,
      effectiveVideoFilter
          (buildFFmpegCmd "/tmp/input.mp4" "30" "45" ratio false sf ss op)
        = some (scaleFilterStr (getAspectRatioDimensions ratio).1
            (getAspectRatioDimensions ratio).2)
      ∧ effectiveVideoFilter
          (buildFFmpegCmd "/tmp/input.mp4" "30" "45" ratio true sf ss op)
        = some (subtitleFilterStr sf ss))
    ∧ (∀ w h sw sh : Nat, scaleContentDims w h sw sh = (w, h))
    ∧ (∀ w h sw sh : Nat, sw * h ≠ sh * w →
        (scaleContentDims w h sw sh).1 * sh ≠ (scaleContentDims w h sw sh).2 * sw) := by
  refine ⟨fun ratio sf ss op =>
      ⟨effectiveVideoFilter_no_captions ratio sf ss op,
       effectiveVideoFilter_with_captions ratio sf ss op⟩,
    fun w h sw sh => rfl, ?_⟩
  intro w h sw sh hne heq
  apply hne
  simp only [scaleContentDims] at heq
  rw [Nat.mul_comm sw h, ← heq, Nat.mul_comm w sh]

/-- C4, witness: the amended theorem's distortion clause applied to the
1080x1080 source with 16:9 target, the aspect-difference hypothesis
discharged concretely. -/
theorem C4_witness :
    (scaleContentDims 1920 1080 1080 1080).1 * 1080
      ≠ (scaleContentDims 1920 1080 1080 1080).2 * 1080 :=
  C4_stretch_not_letterbox.2.2 1920 1080 1080 1080 (by decide)
